import Mathlib

/-!
Shallow embedding of the ferrum identity layer: the user repository
(src/auth/user_repository.rs), the JWT codec (src/auth/jwt.rs), the request
middleware (src/auth/middleware.rs), the auth API handlers (src/api/auth.rs)
and the error type (src/error.rs). Rust strings are modelled as lists of
characters, UUIDs as naturals, Unix timestamps as integers; the current
time and freshly generated UUIDs are passed as explicit parameters.
-/

namespace Ferrum

/-- A Rust string, modelled as its character sequence. -/
abbrev Str := List Char

/-- char lowercasing as used by str::to_lowercase, on the ASCII range
(usernames are validated to ASCII letters, digits and underscore by the
registration handler). -/
def rustToLower (c : Char) : Char :=
  if 'A' ≤ c ∧ c ≤ 'Z' then Char.ofNat (c.toNat + 32) else c

/-- str::to_lowercase. -/
def strToLower (s : Str) : Str := s.map rustToLower

/-- AppError (src/error.rs lines 38-75), payloads as message strings. -/
inductive AppError where
  | NotFound : Str → AppError
  | Unauthorized : Str → AppError
  | Forbidden : Str → AppError
  | Validation : Str → AppError
  | Conflict : Str → AppError
  | BadRequest : Str → AppError
  | Internal : Str → AppError
  | Io : Str → AppError
  | Json : Str → AppError
deriving DecidableEq, Repr

/-- AppError::invalid_credentials (src/error.rs lines 94-96). -/
def AppError.invalid_credentials : AppError :=
  .Unauthorized "Invalid username or password".data

/-- AppError::invalid_token (src/error.rs lines 99-101). -/
def AppError.invalid_token : AppError :=
  .Unauthorized "Invalid or expired token".data

/-- User (src/auth/user_repository.rs lines 14-29). -/
structure User where
  id : Nat
  username : Str
  password_hash : Str
  is_admin : Bool
  created_at : Int
  last_login : Option Int
deriving DecidableEq, Repr

/-- User::new (src/auth/user_repository.rs lines 33-42), with the fresh
UUID and the current time as explicit parameters. -/
def User.new (id : Nat) (username password_hash : Str) (is_admin : Bool)
    (now : Int) : User :=
  { id := id, username := username, password_hash := password_hash,
    is_admin := is_admin, created_at := now, last_login := none }

/-- The in-memory cache HashMap of JsonUserRepository (line 104), modelled
as its list of values; the map key of each entry is its id field. -/
abbrev Store := List User

/-- JsonUserRepository::find_by_username (lines 172-179). -/
def find_by_username (store : Store) (username : Str) : Option User :=
  let username_lower := strToLower username
  store.find? (fun u => strToLower u.username == username_lower)

/-- UserRepository::username_exists, the trait default method (lines 94-96). -/
def username_exists (store : Store) (username : Str) : Bool :=
  (find_by_username store username).isSome

/-- HashMap::insert keyed on the id field: replaces any entry with the
same id. -/
def insertById (u : User) (store : Store) : Store :=
  u :: store.filter (fun v => v.id != u.id)

/-- JsonUserRepository::count (lines 233-236). -/
def count (store : Store) : Nat := store.length

/-- JsonUserRepository::create (lines 181-198): the duplicate-username
check, then the insertion into the cache. The save to disk is modelled by
saveStore below and treated as succeeding here. Returns the call result
together with the store after the call. -/
def create (store : Store) (user : User) : Except AppError User × Store :=
  if username_exists store user.username then
    (.error (.Conflict ("Username '".data ++ user.username ++ "' already exists".data)), store)
  else
    (.ok user, insertById user store)

/-- One serialized user record of the JSON users file. password_hash is an
Option because serde omits the key entirely when it is skipped. -/
structure StoredUser where
  id : Nat
  username : Str
  password_hash : Option Str
  is_admin : Bool
  created_at : Int
  last_login : Option Int
deriving DecidableEq, Repr

/-- Serde serialization of one User: every field is written except
password_hash, which carries the skip_serializing serde attribute
(src/auth/user_repository.rs line 21). -/
def serializeUser (u : User) : StoredUser :=
  { id := u.id, username := u.username, password_hash := none,
    is_admin := u.is_admin, created_at := u.created_at,
    last_login := u.last_login }

/-- Serde deserialization of one User: password_hash carries no serde
default, so a record in which the key is missing fails to parse. -/
def deserializeUser (s : StoredUser) : Except Str User :=
  match s.password_hash with
  | some h =>
    .ok { id := s.id, username := s.username, password_hash := h,
          is_admin := s.is_admin, created_at := s.created_at,
          last_login := s.last_login }
  | none => .error "missing field password_hash".data

/-- JsonUserRepository::save (lines 143-163): serialize every cached user
into the users file. -/
def saveStore (store : Store) : List StoredUser := store.map serializeUser

/-- JsonUserRepository::load (lines 123-140): parse the whole users file;
a single unparsable record fails the load (and hence startup). -/
def loadStore : List StoredUser → Except Str Store
  | [] => .ok []
  | s :: rest => do
    let u ← deserializeUser s
    let us ← loadStore rest
    .ok (u :: us)

deriving instance DecidableEq for Except

/-- State of two concurrent create calls against the shared store.
pc = 0: the call is about to run the username_exists check (under the read
lock); pc = 1: it passed the check and is about to insert (under the write
lock); pc = 2: it has returned. -/
structure RaceState where
  store : Store
  pc1 : Nat
  pc2 : Nat
  res1 : Option (Except AppError User)
  res2 : Option (Except AppError User)
deriving DecidableEq, Repr

/-- One atomic phase of JsonUserRepository::create (lines 181-198). The
duplicate check runs under a read lock that is released before the write
lock is taken for the insertion, so the two phases of one call can
interleave with the phases of a concurrent call. -/
def createPhase (u : User) (pc : Nat) (store : Store) :
    Nat × Store × Option (Except AppError User) :=
  match pc with
  | 0 =>
    if username_exists store u.username then
      (2, store,
        some (.error (.Conflict ("Username '".data ++ u.username ++ "' already exists".data))))
    else
      (1, store, none)
  | 1 => (2, insertById u store, some (.ok u))
  | _ => (pc, store, none)

/-- Run one step of the chosen thread (false = thread 1, true = thread 2). -/
def raceStep (u1 u2 : User) (s : RaceState) (tid : Bool) : RaceState :=
  if tid then
    let next := createPhase u2 s.pc2 s.store
    { s with store := next.2.1, pc2 := next.1,
             res2 := match next.2.2 with | some r => some r | none => s.res2 }
  else
    let next := createPhase u1 s.pc1 s.store
    { s with store := next.2.1, pc1 := next.1,
             res1 := match next.2.2 with | some r => some r | none => s.res1 }

/-- Run a schedule of thread choices from a starting state. -/
def runSchedule (u1 u2 : User) (sched : List Bool) (s : RaceState) : RaceState :=
  sched.foldl (raceStep u1 u2) s

/-- Thread 1's user for the create race: username "Alice". -/
def raceUserA : User := User.new 1 "Alice".data "hashA".data false 0

/-- Thread 2's user for the create race: username "alice". -/
def raceUserB : User := User.new 2 "alice".data "hashB".data false 0

/-- JWT claims payload (src/auth/jwt.rs lines 12-24). -/
structure Claims where
  sub : Nat
  username : Str
  is_admin : Bool
  exp : Int
  iat : Int
deriving DecidableEq, Repr

/-- Claims::new (src/auth/jwt.rs lines 28-39): the current time is passed
explicitly; chrono Duration::days(d) adds d * 86400 seconds, and
DateTime::timestamp of the sum is the sum of the timestamps. -/
def Claims.new (user_id : Nat) (username : Str) (is_admin : Bool)
    (expiry_days : Int) (now : Int) : Claims :=
  { sub := user_id, username := username, is_admin := is_admin,
    exp := now + expiry_days * 86400, iat := now }

/-- Claims::is_expired (src/auth/jwt.rs lines 42-44). -/
def Claims.is_expired (c : Claims) (now : Int) : Bool :=
  now > c.exp

/-- A signed token: the claims together with the secret whose HMAC
signature it carries. Decoding under a different secret fails signature
verification. -/
structure Token where
  claims : Claims
  secret : Str
deriving DecidableEq, Repr

/-- encode_token (src/auth/jwt.rs lines 59-67). -/
def encode_token (secret : Str) (claims : Claims) : Token :=
  { claims := claims, secret := secret }

/-- The default leeway, in seconds, of the exp check performed by
jsonwebtoken::Validation::default(). -/
def decodeLeeway : Int := 60

/-- decode_token (src/auth/jwt.rs lines 70-81): signature verification,
then the library exp check (with the default leeway); every decode failure
is mapped to AppError::invalid_token. -/
def decode_token (secret : Str) (tok : Token) (now : Int) : Except AppError Claims :=
  if tok.secret = secret then
    if tok.claims.exp < now - decodeLeeway then .error AppError.invalid_token
    else .ok tok.claims
  else .error AppError.invalid_token

/-- AuthenticatedUser (src/auth/middleware.rs lines 21-28). -/
structure AuthenticatedUser where
  id : Nat
  username : Str
  is_admin : Bool
deriving DecidableEq, Repr

/-- AuthenticatedUser::from_claims (src/auth/middleware.rs lines 32-38). -/
def AuthenticatedUser.from_claims (c : Claims) : AuthenticatedUser :=
  { id := c.sub, username := c.username, is_admin := c.is_admin }

/-- Rust str::strip_prefix: the remainder after the prefix when it
matches. -/
def rustStripStart (p s : Str) : Option Str :=
  if p.isPrefixOf s then some (s.drop p.length) else none

/-- The header-parsing part of extract_user (src/auth/middleware.rs lines
62-78): a missing header is one error, then strip_prefix of the literal
"Bearer " or else of the literal "bearer ", any other shape being a second,
distinct error. -/
def parseAuthHeader (header : Option Str) : Except AppError Str :=
  match header with
  | none => .error (.Unauthorized "Missing Authorization header".data)
  | some s =>
    match (rustStripStart "Bearer ".data s).orElse
        (fun _ => rustStripStart "bearer ".data s) with
    | some tok => .ok tok
    | none =>
      .error (.Unauthorized "Invalid Authorization header format. Expected: Bearer <token>".data)

/-- The token-validation part of extract_user (src/auth/middleware.rs
lines 81-88): decode_token, then the independent is_expired re-check. -/
def checkToken (secret : Str) (tok : Token) (now : Int) :
    Except AppError AuthenticatedUser :=
  match decode_token secret tok now with
  | .error e => .error e
  | .ok claims =>
    if claims.is_expired now then .error AppError.invalid_token
    else .ok (AuthenticatedUser.from_claims claims)

/-- LoginRequest (src/api/auth.rs lines 36-40). -/
structure LoginRequest where
  username : Str
  password : Str

/-- login (src/api/auth.rs lines 148-176). verify abstracts
verify_password (Argon2, src/api/auth.rs lines 84-93); updRes is the
discarded result of the best-effort last_login update (line 165, written
let _ = repo.update(..) in the source); the returned user is the one
embedded in the AuthResponse, token issuance being infallible in the
model. -/
def login (store : Store) (req : LoginRequest)
    (verify : Str → Str → Except AppError Bool)
    (updRes : Except AppError User) : Except AppError User :=
  match find_by_username store req.username with
  | none => .error AppError.invalid_credentials
  | some user =>
    match verify req.password user.password_hash with
    | .error e => .error e
    | .ok okPw =>
      if !okPw then .error AppError.invalid_credentials
      else
        let _ := updRes
        .ok user

/-- RegisterRequest (src/api/auth.rs lines 17-29). -/
structure RegisterRequest where
  username : Str
  password : Str

/-- The username length validator: 3-32 characters (line 20). -/
def usernameLengthErrs (u : Str) : List Str :=
  if u.length < 3 ∨ 32 < u.length then ["Username must be 3-32 characters".data]
  else []

/-- The USERNAME_REGEX validator (lines 21-24, 32): one or more characters,
each an ASCII letter, digit or underscore. -/
def usernameCharsErrs (u : Str) : List Str :=
  if u.length ≠ 0 ∧ u.all (fun c => c.isAlphanum || c == '_') then []
  else ["Username can only contain letters, numbers, and underscores".data]

/-- The password length validator: 8-128 characters (line 27). -/
def passwordErrs (p : Str) : List Str :=
  if p.length < 8 ∨ 128 < p.length then ["Password must be 8-128 characters".data]
  else []

/-- RegisterRequest::validate: the collected errors of every field
validator. -/
def validateRegister (req : RegisterRequest) : List Str :=
  usernameLengthErrs req.username ++ usernameCharsErrs req.username ++
    passwordErrs req.password

/-- register (src/api/auth.rs lines 101-142): validation, the handler's own
duplicate check, the first-user-admin decision from count, password
hashing, then repository create. hashFn abstracts hash_password (Argon2
with a fresh salt); fresh_id and now are the generated UUID and the
current time; token issuance cannot fail in the model. Returns the handler
result together with the store after the call. -/
def register (store : Store) (req : RegisterRequest) (fresh_id : Nat)
    (now : Int) (hashFn : Str → Str) : Except AppError User × Store :=
  match validateRegister req with
  | e :: es => (.error (.Validation (List.intercalate ", ".data (e :: es))), store)
  | [] =>
    if username_exists store req.username then
      (.error (.Conflict ("Username '".data ++ req.username ++ "' is already taken".data)), store)
    else
      let is_admin := count store == 0
      let password_hash := hashFn req.password
      let user := User.new fresh_id req.username password_hash is_admin now
      create store user

theorem username_exists_iff (store : Store) (name : Str) :
    username_exists store name = true ↔
      ∃ v ∈ store, strToLower v.username = strToLower name := by
  simp [username_exists, find_by_username, List.find?_isSome]

theorem find_by_username_head (u : User) (rest : Store) (s : Str)
    (h : strToLower u.username = strToLower s) :
    find_by_username (u :: rest) s = some u := by
  simp [find_by_username, List.find?_cons_of_pos, h]

/-- C1: the claim says that saving the store and re-loading the backing
file restores the same records, in particular the same credential_hash.
The code violates it: password_hash carries the serde skip_serializing
attribute, so save writes every record without that field and the load of
any non-empty saved store fails to parse, instead of restoring the
accounts. -/
theorem C1_save_load_fails_on_nonempty_store (u : User) (rest : Store) :
    loadStore (saveStore (u :: rest)) = .error "missing field password_hash".data := rfl

/-- C2: the claim says that for every interleaving of two concurrent
create calls with the same case-folded username exactly one succeeds. The
code violates it: the duplicate check and the insertion are separate
critical sections, and under the interleaving check1, check2, insert1,
insert2 both calls succeed and the store ends with two records for the
same case-folded username. -/
theorem C2_create_race_both_insert :
    (runSchedule raceUserA raceUserB [false, true, false, true]
        ⟨[], 0, 0, none, none⟩).res1 = some (.ok raceUserA) ∧
    (runSchedule raceUserA raceUserB [false, true, false, true]
        ⟨[], 0, 0, none, none⟩).res2 = some (.ok raceUserB) ∧
    raceUserA ∈ (runSchedule raceUserA raceUserB [false, true, false, true]
        ⟨[], 0, 0, none, none⟩).store ∧
    raceUserB ∈ (runSchedule raceUserA raceUserB [false, true, false, true]
        ⟨[], 0, 0, none, none⟩).store ∧
    strToLower raceUserA.username = strToLower raceUserB.username ∧
    raceUserA ≠ raceUserB := by decide

/-- C3: when some stored record's case-folded username equals the new
account's, create returns Conflict and leaves the store unchanged;
otherwise create succeeds and the new record is returned by
find_by_username under any casing of that username. -/
theorem C3_create_conflict_or_visible (store : Store) (a : User) :
    ((∃ v ∈ store, strToLower v.username = strToLower a.username) →
      create store a =
        (.error (.Conflict ("Username '".data ++ a.username ++ "' already exists".data)),
          store)) ∧
    ((∀ v ∈ store, strToLower v.username ≠ strToLower a.username) →
      (create store a).1 = .ok a ∧
      ∀ s : Str, strToLower s = strToLower a.username →
        find_by_username (create store a).2 s = some a) := by
  constructor
  · intro h
    have he : username_exists store a.username = true :=
      (username_exists_iff store a.username).2 h
    simp [create, he]
  · intro h
    have he : username_exists store a.username = false := by
      rw [← Bool.not_eq_true, username_exists_iff]
      push_neg
      exact h
    refine ⟨by simp [create, he], ?_⟩
    intro s hs
    have hstep : (create store a).2 = a :: store.filter (fun v => v.id != a.id) := by
      simp [create, he, insertById]
    rw [hstep]
    exact find_by_username_head a _ s hs.symm

/-- Witness for C3: a store holding username "Alice" rejects a create for
"ALICE" unchanged, and a create for "bob" into the empty store is found
under the casing "BOB". -/
theorem C3_witness :
    create [⟨1, "Alice".data, "h1".data, false, 0, none⟩]
        ⟨2, "ALICE".data, "h2".data, false, 0, none⟩ =
      (.error (.Conflict ("Username '".data ++ "ALICE".data ++ "' already exists".data)),
        [⟨1, "Alice".data, "h1".data, false, 0, none⟩]) ∧
    ((create [] ⟨3, "bob".data, "h3".data, false, 0, none⟩).1 =
        .ok ⟨3, "bob".data, "h3".data, false, 0, none⟩ ∧
      find_by_username (create [] ⟨3, "bob".data, "h3".data, false, 0, none⟩).2 "BOB".data =
        some ⟨3, "bob".data, "h3".data, false, 0, none⟩) := by
  constructor
  · exact (C3_create_conflict_or_visible _ _).1 (by decide)
  · have h2 := (C3_create_conflict_or_visible []
      ⟨3, "bob".data, "h3".data, false, 0, none⟩).2 (by decide)
    exact ⟨h2.1, h2.2 "BOB".data (by decide)⟩

/-- C4: when registration succeeds against a store with count zero the
created account has is_admin true, and when it succeeds against a
non-empty store the created account has is_admin false. -/
theorem C4_first_user_admin (store : Store) (req : RegisterRequest)
    (fresh_id : Nat) (now : Int) (hashFn : Str → Str) (u : User) (store2 : Store)
    (h : register store req fresh_id now hashFn = (.ok u, store2)) :
    (count store = 0 → u.is_admin = true) ∧
    (count store ≠ 0 → u.is_admin = false) := by
  unfold register at h
  split at h
  · simp at h
  · split at h
    · simp at h
    · unfold create at h
      simp only [User.new, count] at h
      split at h
      · simp at h
      · simp only [Prod.mk.injEq, Except.ok.injEq] at h
        obtain ⟨hu, hs⟩ := h
        subst hu
        constructor
        · intro h0
          show (store.length == 0) = true
          simp [show store.length = 0 from h0]
        · intro h0
          show (store.length == 0) = false
          simp only [beq_eq_false_iff_ne]
          exact h0

/-- Witness for C4: registering "alice" into the empty store yields an
account with is_admin true. -/
theorem C4_witness :
    register [] ⟨"alice".data, "password123".data⟩ 7 5 (fun p => p) =
      (.ok (User.new 7 "alice".data "password123".data true 5),
        [User.new 7 "alice".data "password123".data true 5]) ∧
    (User.new 7 "alice".data "password123".data true 5).is_admin = true := by
  refine ⟨by decide, ?_⟩
  exact (C4_first_user_admin [] ⟨"alice".data, "password123".data⟩ 7 5 (fun p => p)
    (User.new 7 "alice".data "password123".data true 5)
    [User.new 7 "alice".data "password123".data true 5] (by decide)).1 (by decide)

/-- C5: decoding a token produced by encoding claims issued for a given
id, username and admin flag, under the same secret and before expiry,
succeeds and returns claims whose subject, username and is_admin equal the
issued values. -/
theorem C5_token_roundtrip (secret : Str) (user_id : Nat) (username : Str)
    (admin : Bool) (ttl t_iss t_val : Int) (_h0 : 0 ≤ ttl)
    (hexp : t_val < (Claims.new user_id username admin ttl t_iss).exp) :
    decode_token secret
        (encode_token secret (Claims.new user_id username admin ttl t_iss)) t_val =
      .ok (Claims.new user_id username admin ttl t_iss) ∧
    (Claims.new user_id username admin ttl t_iss).sub = user_id ∧
    (Claims.new user_id username admin ttl t_iss).username = username ∧
    (Claims.new user_id username admin ttl t_iss).is_admin = admin := by
  refine ⟨?_, rfl, rfl, rfl⟩
  have hexp2 : t_val < t_iss + ttl * 86400 := by simpa [Claims.new] using hexp
  simp [decode_token, encode_token, decodeLeeway, Claims.new]
  omega

/-- Witness for C5: a concrete round trip with ttl 7 days validated at
time 3 succeeds with the issued values. -/
theorem C5_witness :
    decode_token "s".data
        (encode_token "s".data (Claims.new 1 "alice".data true 7 0)) 3 =
      .ok (Claims.new 1 "alice".data true 7 0) ∧
    (Claims.new 1 "alice".data true 7 0).sub = 1 ∧
    (Claims.new 1 "alice".data true 7 0).username = "alice".data ∧
    (Claims.new 1 "alice".data true 7 0).is_admin = true :=
  C5_token_roundtrip "s".data 1 "alice".data true 7 0 3 (by decide) (by decide)

/-- C6 counterexample: the claim says every token whose expires_at is not
after the current time is rejected, including one issued with ttl zero.
A token issued with ttl zero at time 100, whose exp equals 100, is
accepted by the decode-plus-recheck pipeline at time 100: the library exp
check passes within its leeway and is_expired uses a strict comparison. -/
theorem C6_counterexample :
    (Claims.new 1 "alice".data false 0 100).exp ≤ 100 ∧
    checkToken "s".data
        (encode_token "s".data (Claims.new 1 "alice".data false 0 100)) 100 =
      .ok ⟨1, "alice".data, false⟩ := by decide

/-- C6 amended: every token whose claims carry an expires_at strictly
before the current time is rejected by the decode-plus-recheck pipeline
with AppError::invalid_token, the same error value used for malformed
tokens. -/
theorem C6_expired_rejected (secret : Str) (tok : Token) (now : Int)
    (h : tok.claims.exp < now) :
    checkToken secret tok now = .error AppError.invalid_token := by
  by_cases hs : tok.secret = secret
  · by_cases hl : tok.claims.exp < now - decodeLeeway
    · simp [checkToken, decode_token, hs, hl]
    · simp [checkToken, decode_token, hs, hl, Claims.is_expired, h]
  · simp [checkToken, decode_token, hs]

/-- Witness for C6: a token whose exp is 0 is rejected at time 100 with
AppError::invalid_token. -/
theorem C6_witness :
    checkToken "s".data (encode_token "s".data (Claims.new 1 "alice".data false 0 0)) 100 =
      .error AppError.invalid_token :=
  C6_expired_rejected "s".data
    (encode_token "s".data (Claims.new 1 "alice".data false 0 0)) 100 (by decide)

/-- C7: a login whose username is not in the store and a login whose
username is found but whose password fails verification return the
identical error value, the Unauthorized variant with the message
"Invalid username or password". -/
theorem C7_login_errors_indistinguishable (store : Store)
    (reqA reqB : LoginRequest) (verify : Str → Str → Except AppError Bool)
    (updA updB : Except AppError User) (u : User)
    (hA : find_by_username store reqA.username = none)
    (hB : find_by_username store reqB.username = some u)
    (hv : verify reqB.password u.password_hash = .ok false) :
    login store reqA verify updA =
      .error (.Unauthorized "Invalid username or password".data) ∧
    login store reqB verify updB =
      .error (.Unauthorized "Invalid username or password".data) := by
  constructor
  · simp [login, hA, AppError.invalid_credentials]
  · simp [login, hB, hv, AppError.invalid_credentials]

/-- Witness for C7: in a store holding only "bob", a login for the absent
"alice" and a login for "bob" whose verification returns false yield the
same error value. -/
theorem C7_witness :
    login [⟨1, "bob".data, "H".data, false, 0, none⟩] ⟨"alice".data, "pw".data⟩
        (fun _ _ => .ok false) (.ok ⟨1, "bob".data, "H".data, false, 0, none⟩) =
      .error (.Unauthorized "Invalid username or password".data) ∧
    login [⟨1, "bob".data, "H".data, false, 0, none⟩] ⟨"bob".data, "wrong".data⟩
        (fun _ _ => .ok false) (.ok ⟨1, "bob".data, "H".data, false, 0, none⟩) =
      .error (.Unauthorized "Invalid username or password".data) :=
  C7_login_errors_indistinguishable [⟨1, "bob".data, "H".data, false, 0, none⟩]
    ⟨"alice".data, "pw".data⟩ ⟨"bob".data, "wrong".data⟩ (fun _ _ => .ok false)
    (.ok ⟨1, "bob".data, "H".data, false, 0, none⟩)
    (.ok ⟨1, "bob".data, "H".data, false, 0, none⟩)
    ⟨1, "bob".data, "H".data, false, 0, none⟩ (by decide) (by decide) rfl

/-- C8: when the account is found and password verification returns true,
login succeeds and returns the account, for every outcome of the discarded
best-effort last_login update, failures included. -/
theorem C8_login_ignores_update_failure (store : Store) (req : LoginRequest)
    (verify : Str → Str → Except AppError Bool) (updRes : Except AppError User)
    (u : User) (hfind : find_by_username store req.username = some u)
    (hv : verify req.password u.password_hash = .ok true) :
    login store req verify updRes = .ok u := by
  simp [login, hfind, hv]

/-- Witness for C8: a login whose last_login update fails with an IO error
still succeeds. -/
theorem C8_witness :
    login [⟨1, "bob".data, "H".data, false, 0, none⟩] ⟨"bob".data, "right".data⟩
        (fun _ _ => .ok true) (.error (.Io "disk full".data)) =
      .ok ⟨1, "bob".data, "H".data, false, 0, none⟩ :=
  C8_login_ignores_update_failure [⟨1, "bob".data, "H".data, false, 0, none⟩]
    ⟨"bob".data, "right".data⟩ (fun _ _ => .ok true) (.error (.Io "disk full".data))
    ⟨1, "bob".data, "H".data, false, 0, none⟩ (by decide) rfl

/-- C9 counterexample: the claim says every header that begins with the
token prefix under case-insensitive comparison is stripped. The header
"BEARER abc" begins with "bearer " after case folding, yet the code
rejects it with the format error instead of stripping it. -/
theorem C9_counterexample :
    "bearer ".data.isPrefixOf (strToLower "BEARER abc".data) = true ∧
    parseAuthHeader (some "BEARER abc".data) =
      .error (.Unauthorized
        "Invalid Authorization header format. Expected: Bearer <token>".data) := by decide

/-- C9 amended: a header beginning with the exact literal "Bearer " or the
exact literal "bearer " is stripped of its first seven characters and the
remainder passed on; every other header yields Unauthorized with a format
message distinct from the missing-header message, and a missing header
yields the missing-header message. -/
theorem C9_bearer_literal_match (h : Str) :
    ("Bearer ".data.isPrefixOf h = true →
      parseAuthHeader (some h) = .ok (h.drop 7)) ∧
    ("Bearer ".data.isPrefixOf h = false → "bearer ".data.isPrefixOf h = true →
      parseAuthHeader (some h) = .ok (h.drop 7)) ∧
    ("Bearer ".data.isPrefixOf h = false → "bearer ".data.isPrefixOf h = false →
      parseAuthHeader (some h) =
        .error (.Unauthorized
          "Invalid Authorization header format. Expected: Bearer <token>".data)) ∧
    parseAuthHeader none = .error (.Unauthorized "Missing Authorization header".data) ∧
    ("Invalid Authorization header format. Expected: Bearer <token>".data ≠
      "Missing Authorization header".data) := by
  have len7 : ("Bearer ".data).length = 7 := rfl
  have len7b : ("bearer ".data).length = 7 := rfl
  refine ⟨?_, ?_, ?_, rfl, by decide⟩
  · intro hp
    simp [parseAuthHeader, rustStripStart, hp, Option.orElse, len7]
  · intro hn hp
    simp [parseAuthHeader, rustStripStart, hn, hp, Option.orElse, len7b]
  · intro hn hn2
    simp [parseAuthHeader, rustStripStart, hn, hn2, Option.orElse]

/-- Witness for C9: "Bearer abc" and "bearer abc" are stripped to "abc",
and "Basic xyz" is rejected with the format error. -/
theorem C9_witness :
    parseAuthHeader (some "Bearer abc".data) = .ok "abc".data ∧
    parseAuthHeader (some "bearer abc".data) = .ok "abc".data ∧
    parseAuthHeader (some "Basic xyz".data) =
      .error (.Unauthorized
        "Invalid Authorization header format. Expected: Bearer <token>".data) :=
  ⟨(C9_bearer_literal_match "Bearer abc".data).1 (by decide),
    (C9_bearer_literal_match "bearer abc".data).2.1 (by decide) (by decide),
    (C9_bearer_literal_match "Basic xyz".data).2.2.1 (by decide) (by decide)⟩

/-- C10: a registration whose password is shorter than 8 or longer than
128 characters fails with a Validation error, the store left exactly as it
was, before any account creation; and a password of length 8 to 128
passes the password shape check. -/
theorem C10_password_length_validation (store : Store) (req : RegisterRequest)
    (fresh_id : Nat) (now : Int) (hashFn : Str → Str) :
    ((req.password.length < 8 ∨ 128 < req.password.length) →
      register store req fresh_id now hashFn =
        (.error (.Validation (List.intercalate ", ".data (validateRegister req))),
          store)) ∧
    (8 ≤ req.password.length → req.password.length ≤ 128 →
      passwordErrs req.password = []) := by
  constructor
  · intro hlen
    have hpw : passwordErrs req.password = ["Password must be 8-128 characters".data] := by
      simp [passwordErrs, hlen]
    have hne : validateRegister req ≠ [] := by
      simp [validateRegister, hpw]
    rcases hv : validateRegister req with _ | ⟨e, es⟩
    · exact absurd hv hne
    · simp [register, hv]
  · intro h1 h2
    simp [passwordErrs]
    omega

/-- Witness for C10: registering with the 5-character password "short"
fails with a Validation error and leaves the store unchanged, while the
11-character password "password123" passes the password shape check. -/
theorem C10_witness :
    register [] ⟨"alice".data, "short".data⟩ 1 0 (fun p => p) =
      (.error (.Validation (List.intercalate ", ".data
        (validateRegister ⟨"alice".data, "short".data⟩))), []) ∧
    passwordErrs "password123".data = [] :=
  ⟨(C10_password_length_validation [] ⟨"alice".data, "short".data⟩ 1 0 (fun p => p)).1
      (by decide),
    (C10_password_length_validation [] ⟨"alice".data, "password123".data⟩ 1 0
      (fun p => p)).2 (by decide) (by decide)⟩

end Ferrum
